import Mathlib

/-!
Shallow embedding of the HabitGrid state store and derived-view engine
(src/src/App.tsx and the HabitStats/types module).

Conventions of the embedding:
* Calendar dates are represented by their day number (a `Nat`, days since an
  arbitrary epoch).  The source stores dates as canonical `YYYY-MM-DD`
  strings; on canonical strings, string equality and string order agree with
  day-number equality and order, and `getEntry`/`updateEntry`/the journal
  filter only ever compare dates for equality or order.
* JavaScript numbers holding integers are embedded as `Int` (`targetTime`,
  `timeSpent`); `Math.round ((a / b) * 100)` on exact rationals is embedded
  by `jsRound100` below.
* React state setters become explicit state passing on `AppState`.
-/

/-- Embeds `type HabitStatus = 'done' | 'failed' | 'none'` from types.ts. -/
inductive HabitStatus where
  | done
  | failed
  | none
deriving DecidableEq, Repr

/-- Embeds `interface Habit` from types.ts: `id`, `name`, `targetTime`
(minutes), optional `color`. -/
structure Habit where
  id : String
  name : String
  targetTime : Int
  color : Option String := Option.none
deriving DecidableEq, Repr

/-- Embeds `interface HabitEntry` from types.ts: composite key
(`habitId`, `date`), a status, minutes spent, optional notes. -/
structure HabitEntry where
  habitId : String
  date : Nat
  status : HabitStatus
  timeSpent : Int
  notes : Option String := Option.none
deriving DecidableEq, Repr

/-- Embeds `interface AppState` from types.ts: the two containers owned by
the state store (the `habits` and `entries` React state in App.tsx). -/
structure AppState where
  habits : List Habit
  entries : List HabitEntry
deriving DecidableEq, Repr

/-- Embeds `getEntry` (App.tsx lines 113-115):
`entries.find(e => e.habitId === habitId && e.date === date)`. -/
def getEntry (entries : List HabitEntry) (habitId : String) (date : Nat) :
    Option HabitEntry :=
  entries.find? (fun e => e.habitId == habitId && e.date == date)

/-- Embeds `updateEntry` (App.tsx lines 105-111), the list-level upsert:
`prev.filter(e => !(e.habitId === habitId && e.date === date))` followed by
appending the new entry at the end. -/
def updateEntry (entries : List HabitEntry) (habitId : String) (date : Nat)
    (status : HabitStatus) (timeSpent : Int) (notes : Option String) :
    List HabitEntry :=
  (entries.filter (fun e => !(e.habitId == habitId && e.date == date))) ++
    [{ habitId := habitId, date := date, status := status,
       timeSpent := timeSpent, notes := notes }]

/-- The key predicate used by both `getEntry` and `updateEntry`. -/
def entryMatches (habitId : String) (date : Nat) (e : HabitEntry) : Bool :=
  e.habitId == habitId && e.date == date

theorem getEntry_eq_find (entries : List HabitEntry) (habitId : String)
    (date : Nat) :
    getEntry entries habitId date = entries.find? (entryMatches habitId date) := rfl

theorem updateEntry_eq (entries : List HabitEntry) (habitId : String)
    (date : Nat) (status : HabitStatus) (timeSpent : Int)
    (notes : Option String) :
    updateEntry entries habitId date status timeSpent notes =
      (entries.filter (fun e => !(entryMatches habitId date e))) ++
        [{ habitId := habitId, date := date, status := status,
           timeSpent := timeSpent, notes := notes }] := rfl

theorem entryMatches_self (habitId : String) (date : Nat)
    (status : HabitStatus) (timeSpent : Int) (notes : Option String) :
    entryMatches habitId date
      { habitId := habitId, date := date, status := status,
        timeSpent := timeSpent, notes := notes } = true := by
  simp [entryMatches]

/-- Claim C1.  After two successive upserts for the same (habitId, date),
`getEntry` returns exactly the second entry and the entries list holds
exactly one entry for that key (last-write-wins, no duplicate). -/
theorem find?_filter_not {α : Type} (l : List α) (p : α → Bool) :
    (l.filter (fun e => !(p e))).find? p = Option.none := by
  rw [List.find?_eq_none]
  intro x hx
  rcases List.mem_filter.mp hx with ⟨_, hpx⟩
  simp_all

theorem countP_filter_not {α : Type} (l : List α) (p : α → Bool) :
    (l.filter (fun e => !(p e))).countP p = 0 := by
  rw [List.countP_filter]
  simp

theorem upsert_last_write_wins (entries : List HabitEntry) (habitId : String)
    (date : Nat) (s1 s2 : HabitStatus) (t1 t2 : Int) (n1 n2 : Option String) :
    getEntry (updateEntry (updateEntry entries habitId date s1 t1 n1)
        habitId date s2 t2 n2) habitId date =
      some { habitId := habitId, date := date, status := s2,
             timeSpent := t2, notes := n2 } ∧
    (updateEntry (updateEntry entries habitId date s1 t1 n1)
        habitId date s2 t2 n2).countP (entryMatches habitId date) = 1 := by
  have key : ∀ (l : List HabitEntry) (s : HabitStatus) (t : Int)
      (n : Option String),
      updateEntry l habitId date s t n =
        (l.filter (fun e => !(entryMatches habitId date e))) ++
          [{ habitId := habitId, date := date, status := s,
             timeSpent := t, notes := n }] := fun _ _ _ _ => rfl
  rw [getEntry_eq_find, key, key]
  constructor
  · rw [List.find?_append, find?_filter_not]
    simp [entryMatches]
  · rw [List.countP_append, countP_filter_not]
    simp [entryMatches]

/-- Embeds JavaScript `parseInt(s)` (radix 10) as used on the form fields:
skip leading whitespace, read an optional sign and then the longest prefix
of decimal digits; the result is `Option.none` when that prefix is empty
(JS `NaN`).  The hexadecimal `0x` corner of bare `parseInt` cannot arise
from a `type="number"` input and is not modelled. -/
def parseIntJS (s : String) : Option Int :=
  let trimmed := s.data.dropWhile Char.isWhitespace
  let signRest : Bool × List Char :=
    match trimmed with
    | '-' :: cs => (true, cs)
    | '+' :: cs => (false, cs)
    | cs => (false, cs)
  let digits := signRest.2.takeWhile (fun c => c.isDigit)
  if digits.isEmpty then Option.none
  else
    let n : Nat := digits.foldl (fun acc c => acc * 10 + (c.toNat - 48)) 0
    some (if signRest.1 then -(n : Int) else (n : Int))

/-- Embeds `handleAddHabit` (App.tsx lines 67-82).  The form gives `name`
and the raw `targetTime` string; `targetTime = parseInt(raw)`; the habit is
appended only when `name && targetTime` is truthy (nonempty name, parse not
NaN, value not 0).  `Math.random().toString(36).substr(2, 9)` is modelled
by the explicit `freshId` argument. -/
def handleAddHabit (st : AppState) (freshId : String) (name : String)
    (targetTimeStr : String) : AppState :=
  match parseIntJS targetTimeStr with
  | Option.none => st
  | some t =>
    if name = "" then st
    else if t = 0 then st
    else { st with habits := st.habits ++
        [{ id := freshId, name := name, targetTime := t }] }

/-- Embeds `handleUpdateHabit` (App.tsx lines 84-95): same truthiness guard
as `handleAddHabit`; on success replaces `name` and `targetTime` of the
habit whose id matches (spread keeps `id` and `color`). -/
def handleUpdateHabit (st : AppState) (editingId : String) (name : String)
    (targetTimeStr : String) : AppState :=
  match parseIntJS targetTimeStr with
  | Option.none => st
  | some t =>
    if name = "" then st
    else if t = 0 then st
    else { st with habits := st.habits.map (fun h =>
        if h.id == editingId then { h with name := name, targetTime := t }
        else h) }

/-- Embeds `handleDeleteHabit` (App.tsx lines 97-103), past the
`window.confirm` UI gate (the spec treats deletion as unconditional once
invoked): `habits.filter(h => h.id !== id)` and
`entries.filter(e => e.habitId !== id)`. -/
def handleDeleteHabit (st : AppState) (id : String) : AppState :=
  { habits := st.habits.filter (fun h => h.id != id),
    entries := st.entries.filter (fun e => e.habitId != id) }

/-- State-level upsert: `updateEntry` acting on the `entries` component of
the store state (App.tsx lines 105-111). -/
def upsertEntry (st : AppState) (habitId : String) (date : Nat)
    (status : HabitStatus) (timeSpent : Int) (notes : Option String) :
    AppState :=
  { st with entries := updateEntry st.entries habitId date status timeSpent notes }

/-- The four state-store mutators, as one alphabet of operations. -/
inductive StoreOp where
  | addHabit (freshId name targetTimeStr : String)
  | updateHabit (editingId name targetTimeStr : String)
  | deleteHabit (id : String)
  | upsertEntry (habitId : String) (date : Nat) (status : HabitStatus)
      (timeSpent : Int) (notes : Option String)

/-- Applies one state-store operation to a state. -/
def applyOp (st : AppState) : StoreOp → AppState
  | StoreOp.addHabit freshId name targetTimeStr =>
      handleAddHabit st freshId name targetTimeStr
  | StoreOp.updateHabit editingId name targetTimeStr =>
      handleUpdateHabit st editingId name targetTimeStr
  | StoreOp.deleteHabit id => handleDeleteHabit st id
  | StoreOp.upsertEntry habitId date status timeSpent notes =>
      upsertEntry st habitId date status timeSpent notes

/-- The composite-identity invariant on the entries container: no two
entries share both `habitId` and `date`. -/
def EntriesUnique (entries : List HabitEntry) : Prop :=
  (entries.map (fun e => (e.habitId, e.date))).Nodup

instance (entries : List HabitEntry) : Decidable (EntriesUnique entries) :=
  inferInstanceAs (Decidable (List.Nodup _))

theorem handleAddHabit_entries (st : AppState) (freshId name targetTimeStr :
    String) :
    (handleAddHabit st freshId name targetTimeStr).entries = st.entries := by
  unfold handleAddHabit
  cases parseIntJS targetTimeStr
  · rfl
  · dsimp only
    split
    · rfl
    · split <;> rfl

theorem handleUpdateHabit_entries (st : AppState) (editingId name
    targetTimeStr : String) :
    (handleUpdateHabit st editingId name targetTimeStr).entries =
      st.entries := by
  unfold handleUpdateHabit
  cases parseIntJS targetTimeStr
  · rfl
  · dsimp only
    split
    · rfl
    · split <;> rfl

theorem entriesUnique_filter (entries : List HabitEntry)
    (p : HabitEntry → Bool) (h : EntriesUnique entries) :
    EntriesUnique (entries.filter p) := by
  unfold EntriesUnique at h ⊢
  exact h.sublist (List.Sublist.map _ (List.filter_sublist entries))

theorem entriesUnique_updateEntry (entries : List HabitEntry)
    (habitId : String) (date : Nat) (status : HabitStatus) (timeSpent : Int)
    (notes : Option String) (h : EntriesUnique entries) :
    EntriesUnique (updateEntry entries habitId date status timeSpent notes) := by
  unfold EntriesUnique updateEntry
  rw [List.map_append, List.nodup_append]
  refine ⟨?_, ?_, ?_⟩
  · exact entriesUnique_filter entries _ h
  · simp
  · intro x hx
    rcases List.mem_map.mp hx with ⟨e, he, rfl⟩
    rcases List.mem_filter.mp he with ⟨_, hpe⟩
    simp only [List.map_cons, List.map_nil, List.mem_singleton]
    intro hcontra
    have h1 : e.habitId = habitId := congrArg Prod.fst hcontra
    have h2 : e.date = date := congrArg Prod.snd hcontra
    simp [h1, h2] at hpe

/-- Claim C2.  Every state-store operation preserves the invariant that no
two entries share both `habitId` and `date`. -/
theorem applyOp_preserves_unique (st : AppState) (op : StoreOp)
    (h : EntriesUnique st.entries) : EntriesUnique (applyOp st op).entries := by
  cases op with
  | addHabit freshId name targetTimeStr =>
      rw [applyOp, handleAddHabit_entries]; exact h
  | updateHabit editingId name targetTimeStr =>
      rw [applyOp, handleUpdateHabit_entries]; exact h
  | deleteHabit id => exact entriesUnique_filter _ _ h
  | upsertEntry habitId date status timeSpent notes =>
      exact entriesUnique_updateEntry _ _ _ _ _ _ h

/-- Witness for C2 at a concrete state and operation. -/
theorem applyOp_preserves_unique_witness :
    EntriesUnique ((applyOp
      { habits := [{ id := "1", name := "Exercise", targetTime := 30 }],
        entries := [{ habitId := "1", date := 10, status := HabitStatus.done,
                      timeSpent := 30 }] }
      (StoreOp.upsertEntry "1" 10 HabitStatus.failed 5 Option.none)).entries) :=
  applyOp_preserves_unique _ _ (by decide)

/-- Claim C7.  `deleteHabit id` keeps exactly the habits whose id differs
from `id` and exactly the entries whose `habitId` differs from `id`. -/
theorem deleteHabit_spec (st : AppState) (id : String) :
    (∀ h : Habit,
      h ∈ (handleDeleteHabit st id).habits ↔ h ∈ st.habits ∧ h.id ≠ id) ∧
    (∀ e : HabitEntry,
      e ∈ (handleDeleteHabit st id).entries ↔
        e ∈ st.entries ∧ e.habitId ≠ id) := by
  constructor
  · intro h
    simp [handleDeleteHabit, List.mem_filter]
  · intro e
    simp [handleDeleteHabit, List.mem_filter]

/-- Counterexample to claim C6 as stated.  The guard in `handleAddHabit` is
JS truthiness of `parseInt(targetTime)`, which accepts negative values:
with target string `"-5"` (not a positive integer) the habit list changes,
so the operation is not a no-op. -/
theorem addHabit_negative_target_not_noop :
    parseIntJS "-5" = some (-5) ∧ (-5 : Int) < 0 ∧
    (handleAddHabit { habits := [], entries := [] } "x1" "Run" "-5").habits =
      [{ id := "x1", name := "Run", targetTime := -5 }] := by
  refine ⟨?_, ?_, ?_⟩ <;> decide

/-- Claim C6 as amended.  `addHabit` is a no-op exactly when the name is
empty or `parseInt(targetTime)` is NaN or 0; when the name is nonempty and
the parse yields a nonzero integer t (possibly negative, or a truncation of
a non-integer input), it appends exactly one habit with the given name and
target t, leaving the entries untouched. -/
theorem handleAddHabit_characterization (st : AppState)
    (freshId name targetTimeStr : String) :
    ((name = "" ∨ parseIntJS targetTimeStr = Option.none ∨
        parseIntJS targetTimeStr = some 0) →
      handleAddHabit st freshId name targetTimeStr = st) ∧
    (∀ t : Int, parseIntJS targetTimeStr = some t → t ≠ 0 → name ≠ "" →
      (handleAddHabit st freshId name targetTimeStr).habits =
        st.habits ++ [{ id := freshId, name := name, targetTime := t }] ∧
      (handleAddHabit st freshId name targetTimeStr).entries = st.entries) := by
  constructor
  · intro hbad
    unfold handleAddHabit
    rcases hbad with hname | hparse | hzero
    · cases parseIntJS targetTimeStr <;> simp [hname]
    · rw [hparse]
    · rw [hzero]; simp
  · intro t hparse ht hname
    unfold handleAddHabit
    rw [hparse]
    simp [hname, ht]

/-- Witness for the amended C6: an empty name is rejected, and a nonempty
name with the (negative) parsed target -5 appends the habit. -/
theorem handleAddHabit_characterization_witness :
    handleAddHabit { habits := [], entries := [] } "x1" "" "30" =
      { habits := [], entries := [] } ∧
    (handleAddHabit { habits := [], entries := [] } "x2" "Run" "-5").habits =
      [{ id := "x2", name := "Run", targetTime := -5 }] :=
  ⟨(handleAddHabit_characterization
      { habits := [], entries := [] } "x1" "" "30").1 (Or.inl rfl),
   ((handleAddHabit_characterization
      { habits := [], entries := [] } "x2" "Run" "-5").2 (-5)
        (by decide) (by decide) (by decide)).1⟩

theorem getEntry_updateEntry_self (entries : List HabitEntry)
    (habitId : String) (date : Nat) (status : HabitStatus) (timeSpent : Int)
    (notes : Option String) :
    getEntry (updateEntry entries habitId date status timeSpent notes)
        habitId date =
      some { habitId := habitId, date := date, status := status,
             timeSpent := timeSpent, notes := notes } := by
  show (List.filter (fun e => !(entryMatches habitId date e)) entries ++
      [_]).find? (entryMatches habitId date) = _
  rw [List.find?_append, find?_filter_not]
  simp [entryMatches]

/-- Claim C10.  `upsertEntry` performs no referential-integrity check: even
when no habit carries `habitId`, the entry is inserted and returned by
`getEntry`; it survives `addHabit`, `updateHabit` and `deleteHabit` of any
other id, and is removed by `deleteHabit habitId`. -/
theorem upsert_no_referential_check (st : AppState) (habitId : String)
    (date : Nat) (status : HabitStatus) (timeSpent : Int)
    (notes : Option String) (hdangling : ∀ h ∈ st.habits, h.id ≠ habitId) :
    getEntry (upsertEntry st habitId date status timeSpent notes).entries
        habitId date =
      some { habitId := habitId, date := date, status := status,
             timeSpent := timeSpent, notes := notes } ∧
    (handleDeleteHabit (upsertEntry st habitId date status timeSpent notes)
        habitId).entries.countP (fun e => e.habitId == habitId) = 0 ∧
    (∀ otherId : String, otherId ≠ habitId →
      getEntry (handleDeleteHabit
          (upsertEntry st habitId date status timeSpent notes)
          otherId).entries habitId date =
        some { habitId := habitId, date := date, status := status,
               timeSpent := timeSpent, notes := notes }) ∧
    (∀ freshId name targetTimeStr : String,
      getEntry (handleAddHabit
          (upsertEntry st habitId date status timeSpent notes)
          freshId name targetTimeStr).entries habitId date =
        some { habitId := habitId, date := date, status := status,
               timeSpent := timeSpent, notes := notes }) ∧
    (∀ editingId name targetTimeStr : String,
      getEntry (handleUpdateHabit
          (upsertEntry st habitId date status timeSpent notes)
          editingId name targetTimeStr).entries habitId date =
        some { habitId := habitId, date := date, status := status,
               timeSpent := timeSpent, notes := notes }) := by
  refine ⟨getEntry_updateEntry_self _ _ _ _ _ _, ?_, ?_, ?_, ?_⟩
  · have hz : ∀ l : List HabitEntry,
        (l.filter (fun e => e.habitId != habitId)).countP
          (fun e => e.habitId == habitId) = 0 := by
      intro l
      rw [List.countP_filter]
      simp
    exact hz _
  · intro otherId hother
    show ((List.filter (fun e => !(entryMatches habitId date e)) st.entries ++
        [({ habitId := habitId, date := date, status := status,
            timeSpent := timeSpent, notes := notes } : HabitEntry)]).filter
          (fun e => e.habitId != otherId)).find?
          (entryMatches habitId date) =
      some { habitId := habitId, date := date, status := status,
             timeSpent := timeSpent, notes := notes }
    rw [List.filter_append]
    rw [List.find?_append]
    have h1 : ((st.entries.filter
        (fun e => !(entryMatches habitId date e))).filter
          (fun e => e.habitId != otherId)).find?
            (entryMatches habitId date) = Option.none := by
      rw [List.find?_eq_none]
      intro x hx
      rcases List.mem_filter.mp hx with ⟨hx1, _⟩
      rcases List.mem_filter.mp hx1 with ⟨_, hpx⟩
      simp_all
    rw [h1]
    simp [entryMatches, bne_iff_ne, Ne.symm, hother]
  · intro freshId name targetTimeStr
    rw [handleAddHabit_entries]
    exact getEntry_updateEntry_self _ _ _ _ _ _
  · intro editingId name targetTimeStr
    rw [handleUpdateHabit_entries]
    exact getEntry_updateEntry_self _ _ _ _ _ _

/-- Embeds `Math.round ((a / b) * 100)` on exact rationals: for b > 0,
`Math.round x = ⌊x + 1/2⌋` (JS rounds ties toward positive infinity), so
the result is the floor division of `200 * a + b` by `2 * b`. -/
def jsRound100 (a b : Int) : Int :=
  Int.fdiv (2 * (100 * a) + b) (2 * b)

/-- The observable content of one monthly-grid cell (App.tsx lines
221-263): whether the numbers block is rendered (`entry || isAutoFailed`),
the done highlight (`entry?.status === 'done'`), the failed highlight
(`entry?.status === 'failed' || isAutoFailed`), the minutes figure
(`entry ? entry.timeSpent : 0`) and the percent figure
(`entry ? Math.round((entry.timeSpent / habit.targetTime) * 100) : 0`). -/
structure GridCell where
  shown : Bool
  doneMark : Bool
  failedMark : Bool
  minutes : Int
  percent : Int
deriving DecidableEq, Repr

/-- Embeds the per-cell rendering logic of the monthly grid (App.tsx lines
221-263): `entry = getEntry(habit.id, dateStr)`,
`isPastDay = isBefore(day, startOfToday())`,
`isAutoFailed = isPastDay && !entry`. -/
def gridCell (entries : List HabitEntry) (habit : Habit) (day today : Nat) :
    GridCell :=
  let entry := getEntry entries habit.id day
  let isPastDay := decide (day < today)
  let isAutoFailed := isPastDay && entry.isNone
  { shown := entry.isSome || isAutoFailed,
    doneMark := match entry with
      | some e => e.status == HabitStatus.done
      | Option.none => false,
    failedMark := (match entry with
      | some e => e.status == HabitStatus.failed
      | Option.none => false) || isAutoFailed,
    minutes := match entry with
      | some e => e.timeSpent
      | Option.none => 0,
    percent := match entry with
      | some e => jsRound100 e.timeSpent habit.targetTime
      | Option.none => 0 }

/-- The monthly grid projection: one row per day of the reference month,
one cell per habit (App.tsx lines 202-267, with the month's days supplied
by `eachDayOfInterval`). -/
def monthlyGrid (habits : List Habit) (entries : List HabitEntry)
    (days : List Nat) (today : Nat) : List (List GridCell) :=
  days.map (fun day => habits.map (fun habit => gridCell entries habit day today))

/-- Claim C3.  A monthly-grid cell shows the explicit entry's minutes and
rounded percent-of-target when an entry exists; an implicit failed marker
with 0 minutes and 0 percent when no entry exists and the day is strictly
before today; and an empty, unmarked cell otherwise. -/
theorem gridCell_spec (entries : List HabitEntry) (habit : Habit)
    (day today : Nat) :
    (∀ e : HabitEntry, getEntry entries habit.id day = some e →
      gridCell entries habit day today =
        { shown := true, doneMark := e.status == HabitStatus.done,
          failedMark := e.status == HabitStatus.failed,
          minutes := e.timeSpent,
          percent := jsRound100 e.timeSpent habit.targetTime }) ∧
    (getEntry entries habit.id day = Option.none → day < today →
      gridCell entries habit day today =
        { shown := true, doneMark := false, failedMark := true,
          minutes := 0, percent := 0 }) ∧
    (getEntry entries habit.id day = Option.none → ¬ day < today →
      gridCell entries habit day today =
        { shown := false, doneMark := false, failedMark := false,
          minutes := 0, percent := 0 }) := by
  refine ⟨?_, ?_, ?_⟩
  · intro e he
    simp [gridCell, he]
  · intro hnone hlt
    simp [gridCell, hnone, hlt]
  · intro hnone hlt
    simp [gridCell, hnone, hlt]

/-- Witness for C3: the spec's own example (target 30, entry of 45 done
minutes gives a 150 percent done cell) plus the two unlogged branches. -/
theorem gridCell_spec_witness :
    gridCell [{ habitId := "h1", date := 5, status := HabitStatus.done,
                timeSpent := 45 }]
        { id := "h1", name := "Exercise", targetTime := 30 } 5 10 =
      { shown := true, doneMark := true, failedMark := false,
        minutes := 45, percent := 150 } ∧
    gridCell [] { id := "h1", name := "Exercise", targetTime := 30 } 5 10 =
      { shown := true, doneMark := false, failedMark := true,
        minutes := 0, percent := 0 } ∧
    gridCell [] { id := "h1", name := "Exercise", targetTime := 30 } 10 10 =
      { shown := false, doneMark := false, failedMark := false,
        minutes := 0, percent := 0 } :=
  ⟨(gridCell_spec _ _ 5 10).1
      { habitId := "h1", date := 5, status := HabitStatus.done,
        timeSpent := 45 } (by decide),
   (gridCell_spec [] _ 5 10).2.1 (by decide) (by decide),
   (gridCell_spec [] _ 10 10).2.2 (by decide) (by decide)⟩

/-- One point of the 30-day trend series (HabitStats `last30Days`): the
source's `date` label `format(date, 'MMM dd')` is embedded as the day
number itself. -/
structure TrendPoint where
  date : Nat
  timeSpent : Int
  target : Int
  status : HabitStatus
deriving DecidableEq, Repr

/-- Embeds `last30Days` (HabitStats component, lines 24-38): a loop from
i = 29 down to 0 pushing, for the day `subDays(today, i)`, the found
entry's `timeSpent || 0`, the habit's `targetTime` and the entry's
`status || 'none'`.  All stored statuses and time figures are truthy or
zero, so `|| default` coincides with `getD`. -/
def last30Days (habit : Habit) (entries : List HabitEntry) (today : Nat) :
    List TrendPoint :=
  (List.range 30).reverse.map (fun i =>
    let date := today - i
    let entry := entries.find? (fun e => e.habitId == habit.id && e.date == date)
    { date := date,
      timeSpent := match entry with
        | some e => e.timeSpent
        | Option.none => 0,
      target := habit.targetTime,
      status := match entry with
        | some e => e.status
        | Option.none => HabitStatus.none })

/-- Claim C4.  The 30-day trend has exactly 30 points, the k-th point (from
the oldest) describing day `today - 29 + k`, ending at today; a point
carries the logged entry's minutes or 0, the habit's target, and status
'none' (not 'failed') when the day is unlogged. -/
theorem last30Days_spec (habit : Habit) (entries : List HabitEntry)
    (today : Nat) (h : 29 ≤ today) :
    (last30Days habit entries today).length = 30 ∧
    ∀ k : Nat, k < 30 →
      (last30Days habit entries today)[k]? =
        some { date := today - 29 + k,
               timeSpent := ((getEntry entries habit.id
                 (today - 29 + k)).map HabitEntry.timeSpent).getD 0,
               target := habit.targetTime,
               status := ((getEntry entries habit.id
                 (today - 29 + k)).map HabitEntry.status).getD
                   HabitStatus.none } := by
  constructor
  · simp [last30Days]
  · intro k hk
    unfold last30Days
    rw [List.getElem?_map, List.getElem?_reverse (by simpa using hk)]
    have hlen : (List.range 30).length - 1 - k = 29 - k := by simp
    rw [hlen, List.getElem?_range (by omega)]
    have hday : today - (29 - k) = today - 29 + k := by omega
    simp only [Option.map_some']
    rw [hday]
    cases hE : getEntry entries habit.id (today - 29 + k) with
    | none =>
        rw [getEntry] at hE
        simp [hE]
    | some e =>
        rw [getEntry] at hE
        simp [hE]

/-- Witness for C4 at today = 29 with no entries: 30 points, the oldest
describing day 0 as unlogged with status 'none'. -/
theorem last30Days_spec_witness :
    (last30Days { id := "h1", name := "Exercise", targetTime := 30 } [] 29).length
      = 30 ∧
    (last30Days { id := "h1", name := "Exercise", targetTime := 30 } [] 29)[0]? =
      some { date := 0, timeSpent := 0, target := 30,
             status := HabitStatus.none } :=
  ⟨(last30Days_spec { id := "h1", name := "Exercise", targetTime := 30 } []
      29 (by decide)).1,
   (last30Days_spec { id := "h1", name := "Exercise", targetTime := 30 } []
      29 (by decide)).2 0 (by decide)⟩

/-- Embeds `completionRate` (HabitStats component, lines 46-51). -/
def completionRate (habit : Habit) (entries : List HabitEntry) : Int :=
  let habitEntries := entries.filter (fun e => e.habitId == habit.id)
  if habitEntries.length = 0 then 0
  else
    jsRound100
      ((habitEntries.filter (fun e => e.status == HabitStatus.done)).length : Int)
      (habitEntries.length : Int)

/-- Claim C5.  The completion rate is 0 for a habit with zero entries, and
otherwise `Math.round ((D / N) * 100)` where N counts the habit's entries
and D counts those among them with status 'done'. -/
theorem completionRate_spec (habit : Habit) (entries : List HabitEntry) :
    completionRate habit entries =
      if entries.countP (fun e => e.habitId == habit.id) = 0 then 0
      else jsRound100
        ((entries.countP (fun e => e.habitId == habit.id &&
            e.status == HabitStatus.done) : Int))
        ((entries.countP (fun e => e.habitId == habit.id) : Int)) := by
  simp only [completionRate]
  rw [show (entries.filter (fun e => e.habitId == habit.id)).length =
      entries.countP (fun e => e.habitId == habit.id) from
    (List.countP_eq_length_filter _ _).symm]
  rw [show ((entries.filter (fun e => e.habitId == habit.id)).filter
      (fun e => e.status == HabitStatus.done)).length =
      (entries.filter (fun e => e.habitId == habit.id)).countP
        (fun e => e.status == HabitStatus.done) from
    (List.countP_eq_length_filter _ _).symm]
  rw [List.countP_filter]
  have hcomm : entries.countP
      (fun a => a.status == HabitStatus.done && a.habitId == habit.id) =
      entries.countP
        (fun e => e.habitId == habit.id && e.status == HabitStatus.done) :=
    List.countP_congr (fun e _ => by rw [Bool.and_comm])
  rw [hcomm]

/-- The hardcoded default habit set installed when nothing is persisted
(App.tsx lines 34-38). -/
def defaultHabits : List Habit :=
  [{ id := "1", name := "Exercise", targetTime := 30 },
   { id := "2", name := "Reading", targetTime := 20 },
   { id := "3", name := "Meditation", targetTime := 10 }]

/-- Outcome of the load effect: either a state is installed, or the effect
aborts on an uncaught exception with the initial empty state untouched. -/
inductive LoadResult where
  | ok (st : AppState)
  | crashed
deriving DecidableEq, Repr

/-- Embeds the load effect (App.tsx lines 26-40).  `saved` is
`localStorage.getItem(STORAGE_KEY)` (`Option.none` for null); `if (saved)`
is JS truthiness, so null and the empty string both take the default
branch.  `JSON.parse` is a platform builtin, modelled abstractly by the
`parse` argument (`Option.none` meaning the parse throws).  The effect has
no try/catch, so a parse exception escapes and no state is installed. -/
def loadData (parse : String → Option AppState) (saved : Option String) :
    LoadResult :=
  match saved with
  | Option.none => LoadResult.ok { habits := defaultHabits, entries := [] }
  | some s =>
    if s = "" then LoadResult.ok { habits := defaultHabits, entries := [] }
    else
      match parse s with
      | some st => LoadResult.ok st
      | Option.none => LoadResult.crashed

/-- Counterexample to claim C8 as stated.  On a persisted string that fails
to deserialize (for example `"oops"`, on which `JSON.parse` throws), the
load effect crashes instead of installing the default habit set: there is
no try/catch around `JSON.parse` in the load effect. -/
theorem loadData_malformed_crashes :
    loadData (fun _ => Option.none) (some "oops") = LoadResult.crashed ∧
    LoadResult.crashed ≠
      LoadResult.ok { habits := defaultHabits, entries := [] } := by
  constructor
  · rfl
  · intro h
    exact LoadResult.noConfusion h

/-- Claim C8 as amended.  Absent persisted state (null, or the falsy empty
string) initializes the default habit set with no entries; a string that
deserializes restores the saved snapshot; a string that fails to
deserialize crashes the load effect, installing neither the snapshot nor
the defaults. -/
theorem loadData_spec (parse : String → Option AppState)
    (saved : Option String) :
    (saved = Option.none →
      loadData parse saved =
        LoadResult.ok { habits := defaultHabits, entries := [] }) ∧
    (saved = some "" →
      loadData parse saved =
        LoadResult.ok { habits := defaultHabits, entries := [] }) ∧
    (∀ (s : String) (st : AppState), saved = some s → s ≠ "" →
      parse s = some st → loadData parse saved = LoadResult.ok st) ∧
    (∀ s : String, saved = some s → s ≠ "" → parse s = Option.none →
      loadData parse saved = LoadResult.crashed) := by
  refine ⟨?_, ?_, ?_, ?_⟩
  · intro h
    rw [h]
    rfl
  · intro h
    rw [h]
    rfl
  · intro s st hs hne hp
    rw [hs]
    simp [loadData, hne, hp]
  · intro s hs hne hp
    rw [hs]
    simp [loadData, hne, hp]

/-- Witness for the amended C8: a parser that succeeds on "x" restores the
parsed snapshot. -/
theorem loadData_spec_witness :
    loadData (fun _ => some { habits := [], entries := [] }) (some "x") =
      LoadResult.ok { habits := [], entries := [] } :=
  (loadData_spec (fun _ => some { habits := [], entries := [] })
    (some "x")).2.2.1 "x" { habits := [], entries := [] } rfl (by decide) rfl

/-- Stable descending insertion on the date key: a later element with an
equal date stays after the earlier ones, matching the stable JS
`Array.prototype.sort` under `compareDesc`. -/
def insertDateDesc (e : HabitEntry) : List HabitEntry → List HabitEntry
  | [] => [e]
  | x :: xs =>
    if e.date > x.date then e :: x :: xs else x :: insertDateDesc e xs

/-- Embeds `journalEntries` (HabitStats component, lines 40-44): the
habit's entries with truthy, non-whitespace-only notes
(`e.notes && e.notes.trim() !== ''`), sorted by date descending
(`compareDesc(parseISO(a.date), parseISO(b.date))`). -/
def journalEntries (habit : Habit) (entries : List HabitEntry) :
    List HabitEntry :=
  (entries.filter (fun e => e.habitId == habit.id &&
      (match e.notes with
       | some n => decide (n ≠ "") && decide (n.trim ≠ "")
       | Option.none => false))).foldl
    (fun acc e => insertDateDesc e acc) []

/-- Claim C9.  The four derived projections are pure functions of exactly
(habits, entries, habit-or-none, reference-date): two invocations with
identical values of those inputs produce identical outputs; in this
embedding the reference date (`new Date()` / `startOfToday()` in the
source) is the explicit `today`/`days` input and no other state exists. -/
theorem projections_pure (habit habit' : Habit)
    (entries entries' : List HabitEntry) (habits habits' : List Habit)
    (days days' : List Nat) (today today' : Nat) (h1 : habit = habit')
    (h2 : entries = entries') (h3 : habits = habits') (h4 : days = days')
    (h5 : today = today') :
    monthlyGrid habits entries days today =
      monthlyGrid habits' entries' days' today' ∧
    last30Days habit entries today = last30Days habit' entries' today' ∧
    completionRate habit entries = completionRate habit' entries' ∧
    journalEntries habit entries = journalEntries habit' entries' := by
  subst h1 h2 h3 h4 h5
  exact ⟨rfl, rfl, rfl, rfl⟩

/-- Witness for C9 at one concrete snapshot. -/
theorem projections_pure_witness :
    monthlyGrid defaultHabits [] [1, 2, 3] 40 =
      monthlyGrid defaultHabits [] [1, 2, 3] 40 ∧
    last30Days { id := "1", name := "Exercise", targetTime := 30 } [] 40 =
      last30Days { id := "1", name := "Exercise", targetTime := 30 } [] 40 ∧
    completionRate { id := "1", name := "Exercise", targetTime := 30 } [] =
      completionRate { id := "1", name := "Exercise", targetTime := 30 } [] ∧
    journalEntries { id := "1", name := "Exercise", targetTime := 30 } [] =
      journalEntries { id := "1", name := "Exercise", targetTime := 30 } [] :=
  projections_pure _ _ _ _ _ _ _ _ _ _ rfl rfl rfl rfl rfl

/-- Witness for C10 at a concrete state whose only habit has id "1" while
the entry is upserted for the dangling id "zz". -/
theorem upsert_no_referential_check_witness :
    getEntry (upsertEntry
        { habits := [{ id := "1", name := "Exercise", targetTime := 30 }],
          entries := [] } "zz" 7 HabitStatus.done 15 Option.none).entries
      "zz" 7 =
      some { habitId := "zz", date := 7, status := HabitStatus.done,
             timeSpent := 15, notes := Option.none } :=
  (upsert_no_referential_check
    { habits := [{ id := "1", name := "Exercise", targetTime := 30 }],
      entries := [] } "zz" 7 HabitStatus.done 15 Option.none (by decide)).1
